import Mathlib

/-!
Shallow embedding of `src/board/hx30/peci_customization.c` (PECI sideband
transaction layer of an embedded controller): package-config read/write frame
building, transport routing by board revision, raw-temperature conversion,
the standby sampling throttle, and the four power-limit setters.

External collaborators (`peci_transaction`, `espi_oob_peci_transaction`,
`chipset_in_state`, `board_get_version`, `get_time`) are modelled as explicit
parameters or oracles.  Issued bus transactions are recorded in an explicit
trace so that routing and "no transaction issued" properties are statable.
-/

/-- The two physical transports a transaction can be routed through:
the dedicated hardware PECI pin (`peci_transaction`) or the eSPI
out-of-band tunnel (`espi_oob_peci_transaction`). -/
inductive Transport where
  | hwPin
  | oob
deriving DecidableEq, Repr

/-- Observable content of one issued bus transaction: the transport it was
routed through and the `struct peci_data` fields the claims talk about
(command code, outbound/inbound lengths, outbound buffer). -/
structure PeciTxn where
  transport : Transport
  cmd : Nat
  wlen : Nat
  rlen : Nat
  wbuf : List Nat
deriving DecidableEq, Repr

/-- `EC_SUCCESS` from the EC error enum (value 0 in the headers, which are
outside the excerpt; only its distinctness from the error codes matters). -/
def EC_SUCCESS : Nat := 0

/-- Modelled from the spec: `EC_ERROR_TIMEOUT`, the timeout class of the
error taxonomy; numeric value from the EC error enum in headers not in the
excerpt, immaterial beyond being nonzero and distinct. -/
def EC_ERROR_TIMEOUT : Nat := 4

/-- Modelled from the spec: `EC_ERROR_INVAL`, the invalid-value error of the
taxonomy; numeric value from headers not in the excerpt, immaterial beyond
being nonzero and distinct. -/
def EC_ERROR_INVAL : Nat := 5

/-- Modelled from the spec: `EC_ERROR_NOT_POWERED`, the not-powered error of
the taxonomy; numeric value from headers not in the excerpt, immaterial
beyond being nonzero and distinct. -/
def EC_ERROR_NOT_POWERED : Nat := 8

/-- Modelled from the spec: PECI command codes (`PECI_CMD_RD_PKG_CFG` etc.)
from `peci.h`, which is not in the excerpt; exact values immaterial. -/
def PECI_CMD_RD_PKG_CFG : Nat := 0xa1

/-- Modelled from the spec: `PECI_CMD_WR_PKG_CFG` command code. -/
def PECI_CMD_WR_PKG_CFG : Nat := 0xa5

/-- Modelled from the spec: `PECI_CMD_GET_TEMP` command code. -/
def PECI_CMD_GET_TEMP : Nat := 0x01

/-- Modelled from the spec: Read-Package-Config outbound length — the spec
fixes a 4-byte outbound frame. -/
def PECI_RD_PKG_CONFIG_WRITE_LENGTH : Nat := 4

/-- Modelled from the spec: Write-Package-Config inbound length (the fixed
completion-code buffer); exact value immaterial to the claims. -/
def PECI_WR_PKG_CONFIG_READ_LENGTH : Nat := 1

/-- Modelled from the spec: the double-word Write-Package-Config outbound
length.  The spec fixes a 4-byte header plus `(outbound_length - 5)` payload
bytes, so the double-word (4 payload bytes) length is 9.  This is also the
size of the `out` buffer in `peci_Wr_Pkg_Config`. -/
def PECI_WR_PKG_CONFIG_WRITE_LENGTH_DWORD : Nat := 9

/-- Modelled from the spec: Get-Temperature outbound length ("outbound:
empty"). -/
def PECI_GET_TEMP_WRITE_LENGTH : Nat := 0

/-- Modelled from the spec: Get-Temperature inbound length ("inbound: 2
bytes, little-endian raw relative encoding"). -/
def PECI_GET_TEMP_READ_LENGTH : Nat := 2

/-- Modelled from the spec: the board-revision threshold (`BOARD_VERSION_7`
in the board header, outside the excerpt) at or above which the out-of-band
transport is selected. -/
def BOARD_VERSION_7 : Nat := 7

/-- `SECOND` from `timer.h` (time values are microseconds). -/
def SECOND : Nat := 1000000

/-- The system power states the excerpt distinguishes through
`chipset_in_state`: any off state (`CHIPSET_STATE_ANY_OFF`), standby
(`CHIPSET_STATE_STANDBY`), fully on (`CHIPSET_STATE_ON`), and everything
else (transitional states, matched by none of the three masks). -/
inductive ChipsetState where
  | anyOff
  | standby
  | on
  | transition
deriving DecidableEq, Repr

/-- `chipset_in_state(CHIPSET_STATE_ANY_OFF)`. -/
def inAnyOff : ChipsetState → Bool
  | .anyOff => true
  | _ => false

/-- `chipset_in_state(CHIPSET_STATE_STANDBY)`. -/
def inStandby : ChipsetState → Bool
  | .standby => true
  | _ => false

/-- `chipset_in_state(CHIPSET_STATE_ON)`. -/
def inOn : ChipsetState → Bool
  | .on => true
  | _ => false

/-- `uint64_t` subtraction `a - b` (the `tnow - t` computation in
`stop_read_peci_temp`; `get_time().val` is a `uint64_t`). -/
def usub64 (a b : Nat) : Nat :=
  (a % 18446744073709551616 + 18446744073709551616 - b % 18446744073709551616) %
    18446744073709551616

/-- The persistent `static` pair of `stop_read_peci_temp`: window-start
timestamp `t` and accepted-read counter `read_count`. -/
structure ThrottleState where
  t : Nat
  read_count : Nat
deriving DecidableEq, Repr

/-- `stop_read_peci_temp` as a pure step function: given the current chipset
state (`chipset_in_state` results), the current time `tnow = get_time().val`
and the stored static pair, return the `int` result and the updated pair.

Mirrors lines 206-236 of the source: any-off rejects untouched; standby
rejects untouched while `tnow - t < 7 * SECOND`, otherwise pre-increments
`read_count` and, when the incremented count exceeds 3, rejects with the
counter cleared and the window re-armed to `tnow`; every other state clears
the counter, re-arms, and accepts. -/
def stop_read_peci_temp (ps : ChipsetState) (tnow : Nat) (s : ThrottleState) :
    Nat × ThrottleState :=
  if inAnyOff ps then (EC_ERROR_NOT_POWERED, s)
  else if inStandby ps then
    if usub64 tnow s.t < 7 * SECOND then (EC_ERROR_NOT_POWERED, s)
    else if s.read_count + 1 > 3 then (EC_ERROR_NOT_POWERED, ⟨tnow, 0⟩)
    else (EC_SUCCESS, ⟨s.t, s.read_count + 1⟩)
  else (EC_SUCCESS, ⟨tnow, 0⟩)

/-- `peci_over_espi_get_cpu_temp` (lines 83-122).  Inputs: the configured
`CONFIG_PECI_TJMAX` (header constant, parametrised), the out-of-band
transaction's result `rv` and the two response bytes `b0 = r_buf[0]`,
`b1 = r_buf[1]`, and the caller's current `*cpu_temp` value `cpu_temp0`.
Output: the `int` return value, the final `*cpu_temp`, and the trace of
issued transactions.

On `rv == EC_ERROR_TIMEOUT` the source calls `espi_oob_retry_receive_date`
to refill `r_buf`, but then still executes `if (rv) return rv;` with the
unchanged nonzero `rv`, so the salvage has no effect on the observable
result and both failure branches collapse into the early return, with
`*cpu_temp` untouched.  On success the source stores the raw 16-bit value,
then the decoded offset, then (when in range) the Kelvin value into
`*cpu_temp`; only the final stored value is observable. -/
def peci_over_espi_get_cpu_temp (tjmax : Nat) (rv : Nat) (b0 b1 : Nat)
    (cpu_temp0 : Nat) : Nat × Nat × List PeciTxn :=
  let txn : PeciTxn :=
    { transport := .oob, cmd := PECI_CMD_GET_TEMP,
      wlen := PECI_GET_TEMP_WRITE_LENGTH, rlen := PECI_GET_TEMP_READ_LENGTH,
      wbuf := [] }
  if rv ≠ EC_SUCCESS then (rv, cpu_temp0, [txn])
  else
    let v := (b1 <<< 8) ||| b0
    let off := ((v ^^^ 0xFFFF) + 1) >>> 6
    if off ≥ tjmax then (EC_ERROR_INVAL, off, [txn])
    else (EC_SUCCESS, tjmax - off + 273, [txn])

/-- The body of the serialization loop in `peci_Wr_Pkg_Config` (lines
69-70): `for (clen = 4; clen < wlen - 1; clen++)
out[clen] = (data >> ((clen - 4) * 8)) & 0xFF`. -/
def wrPkgLoop (data wlen : Nat) (clen : Nat) (out : List Nat) : List Nat :=
  if clen < wlen - 1 then
    wrPkgLoop data wlen (clen + 1) (out.set clen ((data >>> ((clen - 4) * 8)) % 256))
  else out
termination_by wlen - 1 - clen

/-- The outbound buffer `out` built by `peci_Wr_Pkg_Config` (lines 52,
64-70): a zero-initialised buffer of size
`PECI_WR_PKG_CONFIG_WRITE_LENGTH_DWORD`, with the 4-byte header
`[hostID=0x00, index, parameter low byte, parameter high byte]` followed by
the little-endian payload loop.  `index` is a `uint8_t` and `parameter` a
`uint16_t`, so both are reduced at the call boundary. -/
def wrPkgOutBuf (index parameter data wlen : Nat) : List Nat :=
  let p := parameter % 65536
  let out0 := List.replicate PECI_WR_PKG_CONFIG_WRITE_LENGTH_DWORD 0
  let out1 := (((out0.set 0 0).set 1 (index % 256)).set 2 (p % 256)).set 3 (p / 256 % 256)
  wrPkgLoop (data % 4294967296) wlen 4 out1

/-- `peci_Wr_Pkg_Config` (lines 47-81).  `txnRv` is the oracle giving the
result of the bus transaction on each transport; `ver` is
`board_get_version()`.  Returns the `int` result and the trace of issued
transactions.  On `ver >= BOARD_VERSION_7` the out-of-band transaction is
issued and its result discarded (the source never binds it), so the
function returns `EC_SUCCESS` unconditionally; below the threshold the
hardware-pin transaction's nonzero result is returned. -/
def peci_Wr_Pkg_Config (ver : Nat) (txnRv : Transport → Nat)
    (index parameter data wlen : Nat) : Nat × List PeciTxn :=
  let tr : Transport := if ver ≥ BOARD_VERSION_7 then .oob else .hwPin
  let txn : PeciTxn :=
    { transport := tr, cmd := PECI_CMD_WR_PKG_CFG, wlen := wlen,
      rlen := PECI_WR_PKG_CONFIG_READ_LENGTH,
      wbuf := wrPkgOutBuf index parameter data wlen }
  if ver ≥ BOARD_VERSION_7 then (EC_SUCCESS, [txn])
  else
    let rv := txnRv .hwPin
    if rv ≠ 0 then (rv, [txn]) else (EC_SUCCESS, [txn])

/-- `peci_Rd_Pkg_Config` (lines 20-45): builds the 4-byte header frame and
issues it through the hardware-pin transport unconditionally, returning the
transaction's nonzero result, else `EC_SUCCESS`. -/
def peci_Rd_Pkg_Config (txnRv : Transport → Nat)
    (index parameter rlen : Nat) : Nat × List PeciTxn :=
  let p := parameter % 65536
  let out : List Nat := [0, index % 256, p % 256, p / 256 % 256]
  let txn : PeciTxn :=
    { transport := .hwPin, cmd := PECI_CMD_RD_PKG_CFG,
      wlen := PECI_RD_PKG_CONFIG_WRITE_LENGTH, rlen := rlen, wbuf := out }
  let rv := txnRv .hwPin
  if rv ≠ 0 then (rv, [txn]) else (EC_SUCCESS, [txn])

/-- `peci_over_espi_temp_sensor_get_val` (lines 238-258).  The throttle is
consulted once; on rejection its error is returned at once with no bus
transaction.  Otherwise the `for (i = 0; i < 2; i++)` retry loop is unrolled
to its two iterations: the second attempt runs only when the first returns a
nonzero result, and its input `*temp_ptr` is whatever the first attempt left
there.  `oracle i` gives the out-of-band transaction result and response
bytes of attempt `i`.  Output: the `int` result, the final `*temp_ptr`, the
updated throttle statics, and the transaction trace. -/
def peci_over_espi_temp_sensor_get_val (ps : ChipsetState) (tnow : Nat)
    (s : ThrottleState) (tjmax : Nat) (oracle : Nat → Nat × Nat × Nat)
    (temp0 : Nat) : Nat × Nat × ThrottleState × List PeciTxn :=
  let r := stop_read_peci_temp ps tnow s
  if r.1 ≠ EC_SUCCESS then (r.1, temp0, r.2, [])
  else
    let o0 := oracle 0
    let a1 := peci_over_espi_get_cpu_temp tjmax o0.1 o0.2.1 o0.2.2 temp0
    if a1.1 = EC_SUCCESS then (a1.1, a1.2.1, r.2, a1.2.2)
    else
      let o1 := oracle 1
      let a2 := peci_over_espi_get_cpu_temp tjmax o1.1 o1.2.1 o1.2.2 a1.2.1
      (a2.1, a2.2.1, r.2, a1.2.2 ++ a2.2.2)

/-- `peci_update_PL1` (lines 127-145).  The header constants
`PECI_PL1_CONTROL_TIME_WINDOWS`, `PECI_PL1_POWER_LIMIT_ENABLE`, the
`PECI_PL1_POWER_LIMIT(watt)` macro and the index/parameter pair are outside
the excerpt and are taken as parameters `tw`, `en`, `limit`, `idx`, `par`.
Requires `CHIPSET_STATE_ON`, else `EC_ERROR_NOT_POWERED` with no
transaction; otherwise ors the three fields into the 32-bit data word and
issues the double-word Write-Package-Config, propagating its result. -/
def peci_update_PL1 (ps : ChipsetState) (ver : Nat) (txnRv : Transport → Nat)
    (tw en : Nat) (limit : Int → Nat) (idx par : Nat) (watt : Int) :
    Nat × List PeciTxn :=
  if ¬ inOn ps then (EC_ERROR_NOT_POWERED, [])
  else
    let data := (tw ||| en ||| limit watt) % 4294967296
    let w := peci_Wr_Pkg_Config ver txnRv idx par data
      PECI_WR_PKG_CONFIG_WRITE_LENGTH_DWORD
    if w.1 ≠ 0 then (w.1, w.2) else (EC_SUCCESS, w.2)

/-- `peci_update_PL2` (lines 147-165); same shape as `peci_update_PL1` with
the PL2 header constants as parameters. -/
def peci_update_PL2 (ps : ChipsetState) (ver : Nat) (txnRv : Transport → Nat)
    (tw en : Nat) (limit : Int → Nat) (idx par : Nat) (watt : Int) :
    Nat × List PeciTxn :=
  if ¬ inOn ps then (EC_ERROR_NOT_POWERED, [])
  else
    let data := (tw ||| en ||| limit watt) % 4294967296
    let w := peci_Wr_Pkg_Config ver txnRv idx par data
      PECI_WR_PKG_CONFIG_WRITE_LENGTH_DWORD
    if w.1 ≠ 0 then (w.1, w.2) else (EC_SUCCESS, w.2)

/-- `peci_update_PL4` (lines 167-184): the data word is the magnitude
encoding `PECI_PL4_POWER_LIMIT(watt)` alone — no enable bit, no time
window. -/
def peci_update_PL4 (ps : ChipsetState) (ver : Nat) (txnRv : Transport → Nat)
    (limit : Int → Nat) (idx par : Nat) (watt : Int) : Nat × List PeciTxn :=
  if ¬ inOn ps then (EC_ERROR_NOT_POWERED, [])
  else
    let data := limit watt % 4294967296
    let w := peci_Wr_Pkg_Config ver txnRv idx par data
      PECI_WR_PKG_CONFIG_WRITE_LENGTH_DWORD
    if w.1 ≠ 0 then (w.1, w.2) else (EC_SUCCESS, w.2)

/-- `peci_update_PsysPL2` (lines 186-204); same shape as `peci_update_PL1`
with the Psys-PL2 header constants as parameters. -/
def peci_update_PsysPL2 (ps : ChipsetState) (ver : Nat) (txnRv : Transport → Nat)
    (tw en : Nat) (limit : Int → Nat) (idx par : Nat) (watt : Int) :
    Nat × List PeciTxn :=
  if ¬ inOn ps then (EC_ERROR_NOT_POWERED, [])
  else
    let data := (tw ||| en ||| limit watt) % 4294967296
    let w := peci_Wr_Pkg_Config ver txnRv idx par data
      PECI_WR_PKG_CONFIG_WRITE_LENGTH_DWORD
    if w.1 ≠ 0 then (w.1, w.2) else (EC_SUCCESS, w.2)

/-- C1: a raw 2-byte reading whose derived offset
`o = ((v ^ 0xFFFF) + 1) >> 6` is below `CONFIG_PECI_TJMAX` converts
successfully, and the value delivered through the output pointer is exactly
`CONFIG_PECI_TJMAX - o + 273` Kelvin. -/
theorem C1_get_temperature_kelvin (tjmax b0 b1 temp0 : Nat)
    (hb0 : b0 < 256) (hb1 : b1 < 256)
    (ho : ((((b1 <<< 8) ||| b0) ^^^ 0xFFFF) + 1) >>> 6 < tjmax) :
    (peci_over_espi_get_cpu_temp tjmax EC_SUCCESS b0 b1 temp0).1 = EC_SUCCESS ∧
    (peci_over_espi_get_cpu_temp tjmax EC_SUCCESS b0 b1 temp0).2.1 =
      tjmax - (((((b1 <<< 8) ||| b0) ^^^ 0xFFFF) + 1) >>> 6) + 273 := by
  have hno : ¬ ((((b1 <<< 8) ||| b0) ^^^ 0xFFFF) + 1) >>> 6 ≥ tjmax :=
    Nat.not_le.mpr ho
  simp [peci_over_espi_get_cpu_temp, hno]

/-- C1 witness: raw bytes `0xC0, 0xFF` (value `0xFFC0`) decode to offset 1,
and with `TJMAX = 100` the conversion returns 372 K. -/
theorem C1_get_temperature_kelvin_witness :
    (0xC0 : Nat) < 256 ∧ (0xFF : Nat) < 256 ∧
    ((((0xFF <<< 8) ||| 0xC0) ^^^ 0xFFFF) + 1) >>> 6 < 100 ∧
    (peci_over_espi_get_cpu_temp 100 EC_SUCCESS 0xC0 0xFF 0).1 = EC_SUCCESS ∧
    (peci_over_espi_get_cpu_temp 100 EC_SUCCESS 0xC0 0xFF 0).2.1 =
      100 - (((((0xFF <<< 8) ||| 0xC0) ^^^ 0xFFFF) + 1) >>> 6) + 273 :=
  ⟨by decide, by decide, by decide,
    C1_get_temperature_kelvin 100 0xC0 0xFF 0 (by decide) (by decide) (by decide)⟩

/-- C2: when the transaction succeeds but the derived offset reaches
`CONFIG_PECI_TJMAX`, the conversion returns `EC_ERROR_INVAL`, which is not
`EC_SUCCESS`, so no Kelvin value is reported for the attempt. -/
theorem C2_out_of_range_inval (tjmax b0 b1 temp0 : Nat)
    (hb0 : b0 < 256) (hb1 : b1 < 256)
    (ho : tjmax ≤ ((((b1 <<< 8) ||| b0) ^^^ 0xFFFF) + 1) >>> 6) :
    (peci_over_espi_get_cpu_temp tjmax EC_SUCCESS b0 b1 temp0).1 = EC_ERROR_INVAL ∧
    (peci_over_espi_get_cpu_temp tjmax EC_SUCCESS b0 b1 temp0).1 ≠ EC_SUCCESS := by
  constructor
  · simp [peci_over_espi_get_cpu_temp, ho]
  · simp [peci_over_espi_get_cpu_temp, ho, EC_ERROR_INVAL, EC_SUCCESS]

/-- C2 witness: raw bytes `0x00, 0x00` decode to offset 1024, which is at or
above `TJMAX = 100`, and the conversion reports `EC_ERROR_INVAL`. -/
theorem C2_out_of_range_inval_witness :
    (0 : Nat) < 256 ∧
    (100 : Nat) ≤ ((((0 <<< 8) ||| 0) ^^^ 0xFFFF) + 1) >>> 6 ∧
    (peci_over_espi_get_cpu_temp 100 EC_SUCCESS 0 0 7).1 = EC_ERROR_INVAL ∧
    (peci_over_espi_get_cpu_temp 100 EC_SUCCESS 0 0 7).1 ≠ EC_SUCCESS :=
  ⟨by decide, by decide,
    C2_out_of_range_inval 100 0 0 7 (by decide) (by decide) (by decide)⟩

/-- C10: on an invalid-value failure the output location has already been
overwritten with the decoded relative offset, while on a transaction
failure (timeout included) the output location still holds its prior
value — error atomicity holds for transport failures only. -/
theorem C10_output_atomicity (tjmax rv b0 b1 temp0 : Nat)
    (hb0 : b0 < 256) (hb1 : b1 < 256) :
    (rv ≠ EC_SUCCESS →
      (peci_over_espi_get_cpu_temp tjmax rv b0 b1 temp0).2.1 = temp0) ∧
    (rv = EC_SUCCESS →
      tjmax ≤ ((((b1 <<< 8) ||| b0) ^^^ 0xFFFF) + 1) >>> 6 →
      (peci_over_espi_get_cpu_temp tjmax rv b0 b1 temp0).1 = EC_ERROR_INVAL ∧
      (peci_over_espi_get_cpu_temp tjmax rv b0 b1 temp0).2.1 =
        ((((b1 <<< 8) ||| b0) ^^^ 0xFFFF) + 1) >>> 6) := by
  constructor
  · intro h
    simp [peci_over_espi_get_cpu_temp, h]
  · intro h ho
    subst h
    simp [peci_over_espi_get_cpu_temp, ho]

/-- C10 witness: a timeout (`rv = EC_ERROR_TIMEOUT`) leaves the output at
its prior value 7, while an in-range-violating success overwrites it with
the offset 1024. -/
theorem C10_output_atomicity_witness :
    (peci_over_espi_get_cpu_temp 100 EC_ERROR_TIMEOUT 0 0 7).2.1 = 7 ∧
    ((peci_over_espi_get_cpu_temp 100 EC_SUCCESS 0 0 7).1 = EC_ERROR_INVAL ∧
      (peci_over_espi_get_cpu_temp 100 EC_SUCCESS 0 0 7).2.1 =
        ((((0 <<< 8) ||| 0) ^^^ 0xFFFF) + 1) >>> 6) :=
  ⟨(C10_output_atomicity 100 EC_ERROR_TIMEOUT 0 0 7 (by decide) (by decide)).1
      (by decide),
    (C10_output_atomicity 100 EC_SUCCESS 0 0 7 (by decide) (by decide)).2
      (by decide) (by decide)⟩

/-- `tnow - t` on `uint64_t` agrees with natural subtraction when both
values are in range and time has not run backwards. -/
theorem usub64_eq_sub (a b : Nat) (ha : a < 18446744073709551616)
    (hb : b ≤ a) : usub64 a b = a - b := by
  simp only [usub64]
  omega

/-- C4: in Standby, a call earlier than 7 seconds after the stored window
start is rejected with `EC_ERROR_NOT_POWERED` and the statics are untouched;
once the window has elapsed, a call with fewer than 3 counted reads is
accepted and increments the counter (so up to 3 calls are accepted), and
after the 3rd accepted read the next call is rejected, clears the counter,
and re-arms the window start to the current time. -/
theorem C4_standby_window (tnow : Nat) (s : ThrottleState)
    (hn : tnow < 18446744073709551616) (hm : s.t ≤ tnow) :
    (tnow - s.t < 7 * SECOND →
      stop_read_peci_temp .standby tnow s = (EC_ERROR_NOT_POWERED, s)) ∧
    (7 * SECOND ≤ tnow - s.t → s.read_count < 3 →
      stop_read_peci_temp .standby tnow s =
        (EC_SUCCESS, ⟨s.t, s.read_count + 1⟩)) ∧
    (7 * SECOND ≤ tnow - s.t → 3 ≤ s.read_count →
      stop_read_peci_temp .standby tnow s = (EC_ERROR_NOT_POWERED, ⟨tnow, 0⟩)) := by
  have he : usub64 tnow s.t = tnow - s.t := usub64_eq_sub tnow s.t hn hm
  refine ⟨?_, ?_, ?_⟩
  · intro h
    simp [stop_read_peci_temp, inAnyOff, inStandby, he, h]
  · intro h1 h2
    have h1a : ¬ tnow - s.t < 7 * SECOND := Nat.not_lt.mpr h1
    have h2a : ¬ s.read_count + 1 > 3 := by omega
    simp [stop_read_peci_temp, inAnyOff, inStandby, he, h1a, h2a]
  · intro h1 h2
    have h1a : ¬ tnow - s.t < 7 * SECOND := Nat.not_lt.mpr h1
    have h2a : s.read_count + 1 > 3 := by omega
    simp [stop_read_peci_temp, inAnyOff, inStandby, he, h1a, h2a]

/-- C4 witness: with window start 0 and counter 3, the call at exactly
`7 * SECOND` is rejected, the counter clears, and the window re-arms. -/
theorem C4_standby_window_witness :
    (7 * SECOND : Nat) ≤ 7000000 - 0 ∧
    stop_read_peci_temp .standby 7000000 ⟨0, 3⟩ =
      (EC_ERROR_NOT_POWERED, ⟨7000000, 0⟩) :=
  ⟨by decide,
    (C4_standby_window 7000000 ⟨0, 3⟩ (by decide) (by decide)).2.2
      (by decide) (by decide)⟩

/-- C5 counterexample: a Standby call arriving exactly 7 seconds after the
stored window start (window elapsed) with the counter at 3 is rejected with
`EC_ERROR_NOT_POWERED`, not accepted — refuting the claim that a call at or
after 7 seconds always resets the counter and is accepted. -/
theorem C5_counterexample :
    (stop_read_peci_temp .standby (7 * SECOND) ⟨0, 3⟩).1 = EC_ERROR_NOT_POWERED ∧
    (stop_read_peci_temp .standby (7 * SECOND) ⟨0, 3⟩).1 ≠ EC_SUCCESS := by
  constructor
  · decide
  · decide

/-- C5 amended: in Standby, a call at or after 7 seconds from the stored
window start is accepted — incrementing the counter, without resetting it or
the window start — only when the counter holds fewer than 3 reads; when the
counter has reached 3, the call is rejected, the counter resets to zero, and
the window start re-arms to the current time. -/
theorem C5_elapsed_window (tnow : Nat) (s : ThrottleState)
    (hn : tnow < 18446744073709551616) (hm : s.t ≤ tnow)
    (helapsed : 7 * SECOND ≤ tnow - s.t) :
    (s.read_count < 3 →
      stop_read_peci_temp .standby tnow s =
        (EC_SUCCESS, ⟨s.t, s.read_count + 1⟩)) ∧
    (3 ≤ s.read_count →
      stop_read_peci_temp .standby tnow s = (EC_ERROR_NOT_POWERED, ⟨tnow, 0⟩)) := by
  have he : usub64 tnow s.t = tnow - s.t := usub64_eq_sub tnow s.t hn hm
  have h1a : ¬ tnow - s.t < 7 * SECOND := Nat.not_lt.mpr helapsed
  refine ⟨?_, ?_⟩
  · intro h2
    have h2a : ¬ s.read_count + 1 > 3 := by omega
    simp [stop_read_peci_temp, inAnyOff, inStandby, he, h1a, h2a]
  · intro h2
    have h2a : s.read_count + 1 > 3 := by omega
    simp [stop_read_peci_temp, inAnyOff, inStandby, he, h1a, h2a]

/-- C5 amended witness: at 8 seconds after window start 0 with an empty
counter, the call is accepted and the counter increments to 1 while the
window start stays 0. -/
theorem C5_elapsed_window_witness :
    (0 : Nat) < 3 ∧
    stop_read_peci_temp .standby 8000000 ⟨0, 0⟩ = (EC_SUCCESS, ⟨0, 1⟩) :=
  ⟨by decide,
    (C5_elapsed_window 8000000 ⟨0, 0⟩ (by decide) (by decide) (by decide)).1
      (by decide)⟩

/-- C3: on the hardware-pin path (board revision below the threshold) a
nonzero transaction result is returned to the caller, while on the
out-of-band path (revision at or above the threshold) the function returns
`EC_SUCCESS` for every transaction outcome, since the result is never
checked. -/
theorem C3_wr_pkg_error_asymmetry (ver : Nat) (txnRv : Transport → Nat)
    (index parameter data wlen : Nat) :
    (BOARD_VERSION_7 ≤ ver →
      (peci_Wr_Pkg_Config ver txnRv index parameter data wlen).1 = EC_SUCCESS) ∧
    (ver < BOARD_VERSION_7 → txnRv .hwPin ≠ 0 →
      (peci_Wr_Pkg_Config ver txnRv index parameter data wlen).1 = txnRv .hwPin) ∧
    (ver < BOARD_VERSION_7 → txnRv .hwPin = 0 →
      (peci_Wr_Pkg_Config ver txnRv index parameter data wlen).1 = EC_SUCCESS) := by
  refine ⟨?_, ?_, ?_⟩
  · intro h
    simp [peci_Wr_Pkg_Config, h]
  · intro h1 h2
    have h1a : ¬ BOARD_VERSION_7 ≤ ver := Nat.not_le.mpr h1
    simp [peci_Wr_Pkg_Config, h1a, h2]
  · intro h1 h2
    have h1a : ¬ BOARD_VERSION_7 ≤ ver := Nat.not_le.mpr h1
    simp [peci_Wr_Pkg_Config, h1a, h2]

/-- C3 witness: with a transaction oracle that always fails with 3, revision
7 (out-of-band) still reports `EC_SUCCESS`, while revision 6 (hardware pin)
surfaces the failure 3. -/
theorem C3_wr_pkg_error_asymmetry_witness :
    (peci_Wr_Pkg_Config 7 (fun _ => 3) 1 2 3 9).1 = EC_SUCCESS ∧
    (peci_Wr_Pkg_Config 6 (fun _ => 3) 1 2 3 9).1 = 3 :=
  ⟨(C3_wr_pkg_error_asymmetry 7 (fun _ => 3) 1 2 3 9).1 (by decide),
    (C3_wr_pkg_error_asymmetry 6 (fun _ => 3) 1 2 3 9).2.1 (by decide) (by decide)⟩

/-- Characterisation of the serialization loop: position `j` holds the
little-endian byte of `data` when `clen ≤ j < wlen - 1` (and `j` is inside
the buffer), and is untouched otherwise. -/
theorem wrPkgLoop_getElem (data wlen clen : Nat) (out : List Nat) (j : Nat) :
    (wrPkgLoop data wlen clen out)[j]? =
      if clen ≤ j ∧ j < wlen - 1 ∧ j < out.length then
        some ((data >>> ((j - 4) * 8)) % 256)
      else out[j]? := by
  rw [wrPkgLoop]
  by_cases h : clen < wlen - 1
  · rw [if_pos h, wrPkgLoop_getElem]
    simp only [List.length_set, List.getElem?_set]
    by_cases hj : clen = j
    · subst hj
      by_cases hl : clen < out.length
      · have hc1 : ¬ (clen + 1 ≤ clen ∧ clen < wlen - 1 ∧ clen < out.length) := by
          omega
        have hc2 : clen ≤ clen ∧ clen < wlen - 1 ∧ clen < out.length :=
          ⟨Nat.le_refl _, h, hl⟩
        simp only [if_neg hc1, if_pos rfl, if_pos hl, if_pos hc2]
        simp
      · have hc1 : ¬ (clen + 1 ≤ clen ∧ clen < wlen - 1 ∧ clen < out.length) := by
          omega
        have hc2 : ¬ (clen ≤ clen ∧ clen < wlen - 1 ∧ clen < out.length) := by
          omega
        simp only [if_neg hc1, if_pos rfl, if_neg hl, if_neg hc2]
        rw [List.getElem?_eq_none (Nat.le_of_not_lt hl)]
        simp
    · simp only [if_neg hj]
      by_cases hc : clen + 1 ≤ j ∧ j < wlen - 1 ∧ j < out.length
      · have hc2 : clen ≤ j ∧ j < wlen - 1 ∧ j < out.length := by omega
        simp only [if_pos hc, if_pos hc2]
      · have hc2 : ¬ (clen ≤ j ∧ j < wlen - 1 ∧ j < out.length) := by omega
        simp only [if_neg hc, if_neg hc2]
  · rw [if_neg h]
    have hc : ¬ (clen ≤ j ∧ j < wlen - 1 ∧ j < out.length) := by omega
    rw [if_neg hc]
termination_by wlen - 1 - clen

/-- `peci_Wr_Pkg_Config` issues exactly one transaction on every path: the
Write-Package-Config command carrying the built outbound buffer, routed by
the board-revision threshold. -/
theorem peci_Wr_Pkg_Config_trace (ver : Nat) (txnRv : Transport → Nat)
    (index parameter data wlen : Nat) :
    (peci_Wr_Pkg_Config ver txnRv index parameter data wlen).2 =
      [{ transport := if ver ≥ BOARD_VERSION_7 then .oob else .hwPin,
         cmd := PECI_CMD_WR_PKG_CFG, wlen := wlen,
         rlen := PECI_WR_PKG_CONFIG_READ_LENGTH,
         wbuf := wrPkgOutBuf index parameter data wlen }] := by
  by_cases hv : ver ≥ BOARD_VERSION_7
  · simp [peci_Wr_Pkg_Config, hv]
  · by_cases hrv : txnRv .hwPin ≠ 0
    · simp [peci_Wr_Pkg_Config, hv, hrv]
    · simp [peci_Wr_Pkg_Config, hv, hrv]

/-- C7: the outbound Write-Package-Config frame carried by the issued
transaction is the built buffer, whose byte 0 is the host identifier 0x00,
byte 1 the index, bytes 2 and 3 the low and high bytes of the parameter,
and whose bytes at offsets `4 ≤ j < wlen - 1` (the `wlen - 5` payload
bytes) are the little-endian serialization of the data word. -/
theorem C7_wr_pkg_serialization (ver : Nat) (txnRv : Transport → Nat)
    (index parameter data wlen : Nat)
    (hi : index < 256) (hp : parameter < 65536) (hd : data < 4294967296)
    (hl : wlen ≤ PECI_WR_PKG_CONFIG_WRITE_LENGTH_DWORD) :
    (∀ txn ∈ (peci_Wr_Pkg_Config ver txnRv index parameter data wlen).2,
      txn.wbuf = wrPkgOutBuf index parameter data wlen) ∧
    (wrPkgOutBuf index parameter data wlen)[0]? = some 0 ∧
    (wrPkgOutBuf index parameter data wlen)[1]? = some index ∧
    (wrPkgOutBuf index parameter data wlen)[2]? = some (parameter % 256) ∧
    (wrPkgOutBuf index parameter data wlen)[3]? = some (parameter / 256) ∧
    ∀ j, 4 ≤ j → j < wlen - 1 →
      (wrPkgOutBuf index parameter data wlen)[j]? =
        some ((data >>> ((j - 4) * 8)) % 256) := by
  have hdm : data % 4294967296 = data := Nat.mod_eq_of_lt hd
  have hpm : parameter % 65536 = parameter := Nat.mod_eq_of_lt hp
  have him : index % 256 = index := Nat.mod_eq_of_lt hi
  have hdiv : parameter / 256 < 256 := by omega
  have hdivm : parameter / 256 % 256 = parameter / 256 := Nat.mod_eq_of_lt hdiv
  refine ⟨?_, ?_, ?_, ?_, ?_, ?_⟩
  · intro txn htxn
    rw [peci_Wr_Pkg_Config_trace] at htxn
    simp only [List.mem_singleton] at htxn
    rw [htxn]
  · simp only [wrPkgOutBuf, hpm, him, hdm, hdivm, wrPkgLoop_getElem]
    simp [List.getElem?_set, PECI_WR_PKG_CONFIG_WRITE_LENGTH_DWORD]
  · simp only [wrPkgOutBuf, hpm, him, hdm, hdivm, wrPkgLoop_getElem]
    simp [List.getElem?_set, PECI_WR_PKG_CONFIG_WRITE_LENGTH_DWORD]
  · simp only [wrPkgOutBuf, hpm, him, hdm, hdivm, wrPkgLoop_getElem]
    simp [List.getElem?_set, PECI_WR_PKG_CONFIG_WRITE_LENGTH_DWORD]
  · simp only [wrPkgOutBuf, hpm, him, hdm, hdivm, wrPkgLoop_getElem]
    simp [List.getElem?_set, PECI_WR_PKG_CONFIG_WRITE_LENGTH_DWORD]
  · intro j hj4 hjw
    have hj9 : j < 9 := by
      have : wlen ≤ 9 := hl
      omega
    simp only [wrPkgOutBuf, hpm, him, hdm, hdivm, wrPkgLoop_getElem]
    have hc : 4 ≤ j ∧ j < wlen - 1 ∧
        j < (((((List.replicate PECI_WR_PKG_CONFIG_WRITE_LENGTH_DWORD 0).set 0
          0).set 1 index).set 2 (parameter % 256)).set 3
          (parameter / 256)).length := by
      simp [PECI_WR_PKG_CONFIG_WRITE_LENGTH_DWORD]
      exact ⟨hj4, hjw, hj9⟩
    rw [if_pos hc]

/-- C7 witness: for index 30, parameter 0x1234, data 0x11223344 and write
length 8, the payload bytes at offsets 4, 5, 6 are 0x44, 0x33, 0x22. -/
theorem C7_wr_pkg_serialization_witness :
    (wrPkgOutBuf 30 0x1234 0x11223344 8)[4]? = some 0x44 ∧
    (wrPkgOutBuf 30 0x1234 0x11223344 8)[5]? = some 0x33 ∧
    (wrPkgOutBuf 30 0x1234 0x11223344 8)[6]? = some 0x22 :=
  have h := C7_wr_pkg_serialization 0 (fun _ => 0) 30 0x1234 0x11223344 8
    (by decide) (by decide) (by decide) (by decide)
  ⟨h.2.2.2.2.2 4 (by decide) (by decide),
    h.2.2.2.2.2 5 (by decide) (by decide),
    h.2.2.2.2.2 6 (by decide) (by decide)⟩

/-- C8: transport routing — `peci_Wr_Pkg_Config` issues its single
transaction out-of-band at or above the revision threshold and on the
hardware pin below it (the comparison is re-evaluated in every call);
`peci_over_espi_get_cpu_temp` issues its transaction out-of-band for every
input, and `peci_Rd_Pkg_Config` issues its transaction on the hardware pin
for every input — neither consults the board revision. -/
theorem C8_transport_routing (ver : Nat) (txnRv : Transport → Nat)
    (index parameter data wlen rlen tjmax rv b0 b1 temp0 : Nat) :
    (BOARD_VERSION_7 ≤ ver →
      (peci_Wr_Pkg_Config ver txnRv index parameter data wlen).2.map
        PeciTxn.transport = [.oob]) ∧
    (ver < BOARD_VERSION_7 →
      (peci_Wr_Pkg_Config ver txnRv index parameter data wlen).2.map
        PeciTxn.transport = [.hwPin]) ∧
    (peci_over_espi_get_cpu_temp tjmax rv b0 b1 temp0).2.2.map
      PeciTxn.transport = [.oob] ∧
    (peci_Rd_Pkg_Config txnRv index parameter rlen).2.map
      PeciTxn.transport = [.hwPin] := by
  refine ⟨?_, ?_, ?_, ?_⟩
  · intro hv
    rw [peci_Wr_Pkg_Config_trace]
    simp [hv]
  · intro hv
    have hv2 : ¬ ver ≥ BOARD_VERSION_7 := Nat.not_le.mpr hv
    rw [peci_Wr_Pkg_Config_trace]
    simp [hv2]
  · by_cases hrv : rv ≠ EC_SUCCESS
    · simp [peci_over_espi_get_cpu_temp, hrv]
    · by_cases ho : ((((b1 <<< 8) ||| b0) ^^^ 0xFFFF) + 1) >>> 6 ≥ tjmax
      · simp [peci_over_espi_get_cpu_temp, hrv, ho]
      · simp [peci_over_espi_get_cpu_temp, hrv, ho]
  · by_cases hrv : txnRv .hwPin ≠ 0
    · simp [peci_Rd_Pkg_Config, hrv]
    · simp [peci_Rd_Pkg_Config, hrv]

/-- C8 witness: revision 7 writes route out-of-band, revision 6 writes
route through the hardware pin, and a temperature read and a package-config
read route out-of-band and through the hardware pin respectively. -/
theorem C8_transport_routing_witness :
    (peci_Wr_Pkg_Config 7 (fun _ => 0) 1 2 3 9).2.map PeciTxn.transport =
      [.oob] ∧
    (peci_Wr_Pkg_Config 6 (fun _ => 0) 1 2 3 9).2.map PeciTxn.transport =
      [.hwPin] ∧
    (peci_over_espi_get_cpu_temp 100 0 0 0 0).2.2.map PeciTxn.transport =
      [.oob] ∧
    (peci_Rd_Pkg_Config (fun _ => 0) 1 2 2).2.map PeciTxn.transport =
      [.hwPin] :=
  ⟨(C8_transport_routing 7 (fun _ => 0) 1 2 3 9 2 100 0 0 0 0).1 (by decide),
    (C8_transport_routing 6 (fun _ => 0) 1 2 3 9 2 100 0 0 0 0).2.1 (by decide),
    (C8_transport_routing 7 (fun _ => 0) 1 2 3 9 2 100 0 0 0 0).2.2.1,
    (C8_transport_routing 7 (fun _ => 0) 1 2 3 9 2 100 0 0 0 0).2.2.2⟩

/-- C6: the entry point consults the throttle once; on rejection the
throttle's error comes back unchanged with the output untouched and an
empty transaction trace (no bus transaction); on acceptance the
get-and-convert sequence runs at most twice, stopping at the first success
(one transaction in the trace), and when the first attempt fails the second
attempt's result — success or the last failure — is returned (two
transactions in the trace). -/
theorem C6_temp_sensor_entry (ps : ChipsetState) (tnow : Nat)
    (s : ThrottleState) (tjmax : Nat) (oracle : Nat → Nat × Nat × Nat)
    (temp0 : Nat) :
    ((stop_read_peci_temp ps tnow s).1 ≠ EC_SUCCESS →
      peci_over_espi_temp_sensor_get_val ps tnow s tjmax oracle temp0 =
        ((stop_read_peci_temp ps tnow s).1, temp0,
          (stop_read_peci_temp ps tnow s).2, [])) ∧
    ((stop_read_peci_temp ps tnow s).1 = EC_SUCCESS →
      (peci_over_espi_get_cpu_temp tjmax (oracle 0).1 (oracle 0).2.1
          (oracle 0).2.2 temp0).1 = EC_SUCCESS →
      peci_over_espi_temp_sensor_get_val ps tnow s tjmax oracle temp0 =
        ((peci_over_espi_get_cpu_temp tjmax (oracle 0).1 (oracle 0).2.1
            (oracle 0).2.2 temp0).1,
          (peci_over_espi_get_cpu_temp tjmax (oracle 0).1 (oracle 0).2.1
            (oracle 0).2.2 temp0).2.1,
          (stop_read_peci_temp ps tnow s).2,
          (peci_over_espi_get_cpu_temp tjmax (oracle 0).1 (oracle 0).2.1
            (oracle 0).2.2 temp0).2.2)) ∧
    ((stop_read_peci_temp ps tnow s).1 = EC_SUCCESS →
      (peci_over_espi_get_cpu_temp tjmax (oracle 0).1 (oracle 0).2.1
          (oracle 0).2.2 temp0).1 ≠ EC_SUCCESS →
      peci_over_espi_temp_sensor_get_val ps tnow s tjmax oracle temp0 =
        ((peci_over_espi_get_cpu_temp tjmax (oracle 1).1 (oracle 1).2.1
            (oracle 1).2.2
            (peci_over_espi_get_cpu_temp tjmax (oracle 0).1 (oracle 0).2.1
              (oracle 0).2.2 temp0).2.1).1,
          (peci_over_espi_get_cpu_temp tjmax (oracle 1).1 (oracle 1).2.1
            (oracle 1).2.2
            (peci_over_espi_get_cpu_temp tjmax (oracle 0).1 (oracle 0).2.1
              (oracle 0).2.2 temp0).2.1).2.1,
          (stop_read_peci_temp ps tnow s).2,
          (peci_over_espi_get_cpu_temp tjmax (oracle 0).1 (oracle 0).2.1
            (oracle 0).2.2 temp0).2.2 ++
          (peci_over_espi_get_cpu_temp tjmax (oracle 1).1 (oracle 1).2.1
            (oracle 1).2.2
            (peci_over_espi_get_cpu_temp tjmax (oracle 0).1 (oracle 0).2.1
              (oracle 0).2.2 temp0).2.1).2.2)) := by
  refine ⟨?_, ?_, ?_⟩
  · intro h
    simp [peci_over_espi_temp_sensor_get_val, h]
  · intro h h1
    simp [peci_over_espi_temp_sensor_get_val, h, h1]
  · intro h h1
    simp [peci_over_espi_temp_sensor_get_val, h, h1]

/-- C6 witness: in an off state the throttle error 8 comes back with no
transaction issued; in the on state with both attempts timing out, the
second attempt's failure comes back after two transactions. -/
theorem C6_temp_sensor_entry_witness :
    peci_over_espi_temp_sensor_get_val .anyOff 0 ⟨0, 0⟩ 100
        (fun _ => (0, 0, 0)) 42 =
      ((stop_read_peci_temp .anyOff 0 ⟨0, 0⟩).1, 42,
        (stop_read_peci_temp .anyOff 0 ⟨0, 0⟩).2, []) ∧
    peci_over_espi_temp_sensor_get_val .on 0 ⟨0, 0⟩ 100
        (fun _ => (EC_ERROR_TIMEOUT, 0, 0)) 42 =
      ((peci_over_espi_get_cpu_temp 100 EC_ERROR_TIMEOUT 0 0
          (peci_over_espi_get_cpu_temp 100 EC_ERROR_TIMEOUT 0 0 42).2.1).1,
        (peci_over_espi_get_cpu_temp 100 EC_ERROR_TIMEOUT 0 0
          (peci_over_espi_get_cpu_temp 100 EC_ERROR_TIMEOUT 0 0 42).2.1).2.1,
        (stop_read_peci_temp .on 0 ⟨0, 0⟩).2,
        (peci_over_espi_get_cpu_temp 100 EC_ERROR_TIMEOUT 0 0 42).2.2 ++
        (peci_over_espi_get_cpu_temp 100 EC_ERROR_TIMEOUT 0 0
          (peci_over_espi_get_cpu_temp 100 EC_ERROR_TIMEOUT 0 0 42).2.1).2.2) :=
  ⟨(C6_temp_sensor_entry .anyOff 0 ⟨0, 0⟩ 100 (fun _ => (0, 0, 0)) 42).1
      (by decide),
    (C6_temp_sensor_entry .on 0 ⟨0, 0⟩ 100 (fun _ => (EC_ERROR_TIMEOUT, 0, 0))
        42).2.2 (by decide) (by decide)⟩

/-- The tail of every power-limit setter: `rv = peci_Wr_Pkg_Config(...);
if (rv) return rv; return EC_SUCCESS;` returns exactly the transaction
call's outcome. -/
theorem propagateWr (w : Nat × List PeciTxn) :
    (if w.1 ≠ 0 then (w.1, w.2) else (EC_SUCCESS, w.2)) = w := by
  cases w with
  | mk a b =>
    by_cases h : a = 0
    · simp [h, EC_SUCCESS]
    · simp [h]

/-- C9: each of the four power-limit setters returns `EC_ERROR_NOT_POWERED`
with no transaction when the chipset is not in the fully-on state;
otherwise it equals the double-word Write-Package-Config call on its fixed
index/parameter pair with the composed PowerLimitWord — time window or-ed
with enable bit or-ed with the magnitude for PL1, PL2 and Psys-PL2, the
magnitude alone for PL4 — propagating that call's result and trace. -/
theorem C9_power_limit_setters (ps : ChipsetState) (ver : Nat)
    (txnRv : Transport → Nat)
    (tw1 en1 idx1 par1 : Nat) (lim1 : Int → Nat)
    (tw2 en2 idx2 par2 : Nat) (lim2 : Int → Nat)
    (idx4 par4 : Nat) (lim4 : Int → Nat)
    (twp enp idxp parp : Nat) (limp : Int → Nat) (watt : Int) :
    (inOn ps = false →
      peci_update_PL1 ps ver txnRv tw1 en1 lim1 idx1 par1 watt =
        (EC_ERROR_NOT_POWERED, []) ∧
      peci_update_PL2 ps ver txnRv tw2 en2 lim2 idx2 par2 watt =
        (EC_ERROR_NOT_POWERED, []) ∧
      peci_update_PL4 ps ver txnRv lim4 idx4 par4 watt =
        (EC_ERROR_NOT_POWERED, []) ∧
      peci_update_PsysPL2 ps ver txnRv twp enp limp idxp parp watt =
        (EC_ERROR_NOT_POWERED, [])) ∧
    (inOn ps = true →
      peci_update_PL1 ps ver txnRv tw1 en1 lim1 idx1 par1 watt =
        peci_Wr_Pkg_Config ver txnRv idx1 par1
          ((tw1 ||| en1 ||| lim1 watt) % 4294967296)
          PECI_WR_PKG_CONFIG_WRITE_LENGTH_DWORD ∧
      peci_update_PL2 ps ver txnRv tw2 en2 lim2 idx2 par2 watt =
        peci_Wr_Pkg_Config ver txnRv idx2 par2
          ((tw2 ||| en2 ||| lim2 watt) % 4294967296)
          PECI_WR_PKG_CONFIG_WRITE_LENGTH_DWORD ∧
      peci_update_PL4 ps ver txnRv lim4 idx4 par4 watt =
        peci_Wr_Pkg_Config ver txnRv idx4 par4 (lim4 watt % 4294967296)
          PECI_WR_PKG_CONFIG_WRITE_LENGTH_DWORD ∧
      peci_update_PsysPL2 ps ver txnRv twp enp limp idxp parp watt =
        peci_Wr_Pkg_Config ver txnRv idxp parp
          ((twp ||| enp ||| limp watt) % 4294967296)
          PECI_WR_PKG_CONFIG_WRITE_LENGTH_DWORD) := by
  constructor
  · intro h
    refine ⟨?_, ?_, ?_, ?_⟩ <;>
      simp [peci_update_PL1, peci_update_PL2, peci_update_PL4,
        peci_update_PsysPL2, h]
  · intro h
    refine ⟨?_, ?_, ?_, ?_⟩ <;>
      (simp only [peci_update_PL1, peci_update_PL2, peci_update_PL4,
        peci_update_PsysPL2, h, Bool.not_eq_true, Bool.true_eq_false,
        if_false, propagateWr] ; simp)

/-- C9 witness: in standby every setter reports not-powered with no
transaction; in the on state PL1 equals the corresponding double-word
Write-Package-Config call with the or-composed data word. -/
theorem C9_power_limit_setters_witness :
    peci_update_PL1 .standby 7 (fun _ => 0) 131072 32768 (fun _ => 120) 30 0
        15 = (EC_ERROR_NOT_POWERED, []) ∧
    peci_update_PL1 .on 7 (fun _ => 0) 131072 32768 (fun _ => 120) 30 0 15 =
      peci_Wr_Pkg_Config 7 (fun _ => 0) 30 0
        ((131072 ||| 32768 ||| 120) % 4294967296)
        PECI_WR_PKG_CONFIG_WRITE_LENGTH_DWORD :=
  ⟨((C9_power_limit_setters .standby 7 (fun _ => 0) 131072 32768 30 0
      (fun _ => 120) 0 0 0 0 (fun _ => 0) 0 0 (fun _ => 0) 0 0 0 0
      (fun _ => 0) 15).1 (by decide)).1,
    ((C9_power_limit_setters .on 7 (fun _ => 0) 131072 32768 30 0
      (fun _ => 120) 0 0 0 0 (fun _ => 0) 0 0 (fun _ => 0) 0 0 0 0
      (fun _ => 0) 15).2 (by decide)).1⟩
